import Mathlib

/-!
Shallow embedding of the peer session lifecycle manager of
`src/services/webrtc.ts` (class `WebRTCService`): device initialization,
relay connection management with bounded exponential-backoff reconnection,
outbound calls, mid-call device switching, and teardown.

The service file contains several revisions of the class; the embedding
below follows the final revision (the one with `reconnectAttempts`,
`maxReconnectAttempts`, `reconnectTimeout`, the permission pre-check and
the device-existence check), and additionally embeds the default-device
preference rule (the `droidcam` label match) that appears in the earlier
revision of `initializeDevices`, since that is the only revision carrying
a preference rule.

Platform effects (`navigator.mediaDevices.getUserMedia`,
`navigator.mediaDevices.enumerateDevices`, `navigator.permissions.query`)
are modelled by an explicit `Platform` record of responses; mutation of
the singleton's fields is modelled by explicit state passing on
`ServiceState`. Thrown `Error` values are modelled by `Except String`
carrying the `Error` message, which is exactly what a caller of the
service can observe.
-/

deriving instance DecidableEq for Except

namespace WebRTC

/-- A media track: `MediaStreamTrack` with its `kind` and whether
`track.stop()` has been called on it. -/
structure Track where
  id : String
  kind : String
  stopped : Bool
deriving DecidableEq, Repr

/-- A media stream: an ordered list of tracks (`stream.getTracks()`). -/
structure MediaStream where
  tracks : List Track
deriving DecidableEq, Repr

/-- Models `stream.getTracks().forEach(track => track.stop())`. -/
def MediaStream.stopAll (ms : MediaStream) : MediaStream :=
  { tracks := ms.tracks.map (fun t => { t with stopped := true }) }

/-- Models `stream.getVideoTracks()`. -/
def MediaStream.getVideoTracks (ms : MediaStream) : List Track :=
  ms.tracks.filter (fun t => t.kind = "video")

/-- One entry of `navigator.mediaDevices.enumerateDevices()`. -/
structure MediaDeviceInfo where
  deviceId : String
  kind : String
  label : String
deriving DecidableEq, Repr

/-- An `RTCRtpSender` as far as the service touches it: the track it
currently carries (`sender.track`), replaceable via `replaceTrack`. -/
structure Sender where
  track : Option Track
deriving DecidableEq, Repr

/-- The `RTCPeerConnection` under a call: its list of senders. -/
structure PeerConnection where
  senders : List Sender
deriving DecidableEq, Repr

/-- A PeerJS `MediaConnection`. `peer` is the remote peer id the call was
placed to or received from: at the call sites of the UI this is the room
id (`WebRTCService.makeCall(roomId)`). `isOpen` is the call's open
status. -/
structure MediaConnection where
  peer : String
  isOpen : Bool
  peerConnection : Option PeerConnection
deriving DecidableEq, Repr

/-- The PeerJS `Peer` relay handle, as far as the service reads it:
its id and its `disconnected` / `destroyed` flags. -/
structure PeerHandle where
  id : String
  disconnected : Bool
  destroyed : Bool
deriving DecidableEq, Repr

/-- The platform responses observed during one operation:
the camera permission state reported by `navigator.permissions.query`,
the result of `getUserMedia` under default constraints, the result of
`getUserMedia` with an exact `deviceId` constraint, and the device list
reported by `enumerateDevices`. -/
structure Platform where
  cameraPermission : String
  getUserMediaDefault : Except String MediaStream
  getUserMediaExact : String → Except String MediaStream
  enumerateDevices : List MediaDeviceInfo

/-- The mutable fields of the `WebRTCService` singleton (final revision). -/
structure ServiceState where
  peer : Option PeerHandle
  mediaStream : Option MediaStream
  currentCall : Option MediaConnection
  deviceId : Option String
  devices : List MediaDeviceInfo
  reconnectAttempts : Nat
  reconnectTimeout : Option Nat
deriving DecidableEq, Repr

/-- Field initializers of the class: everything null / empty / zero. -/
def initialState : ServiceState :=
  { peer := none, mediaStream := none, currentCall := none,
    deviceId := none, devices := [], reconnectAttempts := 0,
    reconnectTimeout := none }

/-- Field `private maxReconnectAttempts = 5`. -/
def maxReconnectAttempts : Nat := 5

/-- Base reconnect delay in ms (the literal `1000` in
`Math.min(1000 * Math.pow(2, this.reconnectAttempts), 10000)`). -/
def baseReconnectDelayMs : Nat := 1000

/-- Reconnect delay ceiling in ms (the literal `10000`). -/
def capDelayMs : Nat := 10000

/-- Message of the error thrown when the camera permission is denied. -/
def permissionDeniedMsg : String :=
  "Camera permission denied. Please enable camera access and refresh the page."

/-- Message of the error thrown when no video input device is found. -/
def noVideoDevicesMsg : String := "No video devices found"

/-- Message of the error thrown by `setVideoDevice`'s catch-all handler. -/
def switchDeviceFailedMsg : String :=
  "Failed to switch camera device. Please check if the device is available and not in use by another application."

/-- Message of the error thrown by `makeCall` when the relay connection
is absent or disconnected. -/
def notConnectedMsg : String :=
  "Not connected to server. Please wait for reconnection."

/-- Message of the error thrown by `getLocalStream` when acquisition
fails. -/
def mediaAccessMsg : String :=
  "Could not access camera or microphone. Please check your device permissions."

/-- Detail message of the terminal `peerError` event dispatched when the
maximum number of reconnection attempts has been reached. -/
def maxReconnectMsg : String :=
  "Connection lost. Maximum reconnection attempts reached."

/-- Result of `initializeDevices`: the thrown-or-ok outcome, the state
after the operation (mutations before a throw persist), and whether a
capture (`getUserMedia`) was attempted during the operation. -/
structure InitDevicesOut where
  result : Except String Unit
  state : ServiceState
  captureAttempted : Bool
deriving DecidableEq, Repr

/-- Operation `initializeDevices()` (final revision): permission pre-check, capture
under default constraints, cache the stream, enumerate and filter video
inputs, fail when none, else select the first device. The catch handler
re-throws preserving the inner `Error` message. -/
def initializeDevices (p : Platform) (s : ServiceState) : InitDevicesOut :=
  if p.cameraPermission = "denied" then
    ⟨.error permissionDeniedMsg, s, false⟩
  else
    match p.getUserMediaDefault with
    | .error e => ⟨.error e, s, true⟩
    | .ok stream =>
      let s1 := { s with mediaStream := some stream }
      let vids := p.enumerateDevices.filter (fun d => d.kind = "videoinput")
      let s2 := { s1 with devices := vids }
      match vids with
      | [] => ⟨.error noVideoDevicesMsg, s2, true⟩
      | d :: _ => ⟨.ok (), { s2 with deviceId := some d.deviceId }, true⟩

/-- Operation `getLocalStream()`: return the cached stream, else acquire one with an
exact device constraint when a device is selected, default constraints
otherwise. On failure the state is unchanged and the generic media-access
error is thrown. -/
def getLocalStream (p : Platform) (s : ServiceState) :
    (Except String MediaStream) × ServiceState :=
  match s.mediaStream with
  | some ms => (.ok ms, s)
  | none =>
    match (match s.deviceId with
           | some did => p.getUserMediaExact did
           | none => p.getUserMediaDefault) with
    | .ok stream => (.ok stream, { s with mediaStream := some stream })
    | .error _ => (.error mediaAccessMsg, s)

/-- The `MediaConnection` produced by `peer.call(remotePeerId, stream)`
(and symmetrically by answering an inbound call with `stream`): a
not-yet-open connection whose transport carries one sender per track of
the local stream. -/
def mkMediaConnection (remotePeerId : String) (stream : MediaStream) :
    MediaConnection :=
  { peer := remotePeerId, isOpen := false,
    peerConnection := some { senders := stream.tracks.map (fun t => { track := some t }) } }

/-- Operation `makeCall(remotePeerId)`: fail fast with the not-connected error when
the peer is absent or disconnected; otherwise acquire the local stream,
place the call and store it via `handleCall`. -/
def makeCall (p : Platform) (remotePeerId : String) (s : ServiceState) :
    (Except String Unit) × ServiceState :=
  match s.peer with
  | none => (.error notConnectedMsg, s)
  | some pr =>
    if pr.disconnected then (.error notConnectedMsg, s)
    else
      match getLocalStream p s with
      | (.error e, _) => (.error e, s)
      | (.ok stream, s1) =>
        (.ok (), { s1 with currentCall := some (mkMediaConnection remotePeerId stream) })

/-- Result of `handleDisconnection`: the state after the handler, the
delay of the reconnect timer it scheduled (none when it scheduled no
timer), and whether it dispatched the terminal `peerError` event. -/
structure DisconnectionOut where
  state : ServiceState
  scheduledDelay : Option Nat
  terminalErrorEmitted : Bool
deriving DecidableEq, Repr

/-- Handler `handleDisconnection()`: when `reconnectAttempts` has reached
`maxReconnectAttempts`, dispatch the terminal `peerError` event and
return; otherwise increment `reconnectAttempts`, compute
`delay = Math.min(1000 * Math.pow(2, reconnectAttempts), 10000)`
(with the incremented count), clear any pending timer and schedule a new
one (`newHandle` is the fresh timer handle the platform returns). -/
def handleDisconnection (s : ServiceState) (newHandle : Nat) : DisconnectionOut :=
  if s.reconnectAttempts ≥ maxReconnectAttempts then
    ⟨s, none, true⟩
  else
    let attempts := s.reconnectAttempts + 1
    let delay := Nat.min (baseReconnectDelayMs * 2 ^ attempts) capDelayMs
    ⟨{ s with reconnectAttempts := attempts, reconnectTimeout := some newHandle },
     some delay, false⟩

/-- Models `sender.replaceTrack(videoTrack)` applied to the first sender whose
current track has kind video (the result of
`getSenders().find(s => s.track?.kind === 'video')`). -/
def replaceFirstVideoTrack (senders : List Sender) (newTrack : Option Track) :
    List Sender :=
  match senders with
  | [] => []
  | sn :: rest =>
    match sn.track with
    | some t =>
      if t.kind = "video" then { track := newTrack } :: rest
      else sn :: replaceFirstVideoTrack rest newTrack
    | none => sn :: replaceFirstVideoTrack rest newTrack

/-- Whether some sender currently carries a video track. -/
def hasVideoSender (senders : List Sender) : Bool :=
  senders.any (fun sn => match sn.track with
                         | some t => t.kind = "video"
                         | none => false)

/-- Track stopping at the start of `setVideoDevice`: when a stream is
cached, stop all its tracks; the (now dead) stream stays cached. -/
def stopCurrentTracks (s : ServiceState) : ServiceState :=
  match s.mediaStream with
  | some ms => { s with mediaStream := some ms.stopAll }
  | none => s

/-- Operation `setVideoDevice(deviceId)` (final revision): verify the device exists
in a fresh enumeration (else throw, caught and wrapped into the generic
switch-failure error with the state untouched); stop the current tracks;
record the new device id; acquire a stream bound to it (failure again
wrapped into the generic error, with the mutations so far kept); and when
a call with a transport is active, replace the track of the first video
sender, doing nothing when no video sender exists. -/
def setVideoDevice (p : Platform) (did : String) (s : ServiceState) :
    (Except String Unit) × ServiceState :=
  match p.enumerateDevices.find? (fun d => d.deviceId = did && d.kind = "videoinput") with
  | none => (.error switchDeviceFailedMsg, s)
  | some _ =>
    let s1 := stopCurrentTracks s
    let s2 := { s1 with deviceId := some did }
    match p.getUserMediaExact did with
    | .error _ => (.error switchDeviceFailedMsg, s2)
    | .ok newStream =>
      let s3 := { s2 with mediaStream := some newStream }
      match s3.currentCall with
      | none => (.ok (), s3)
      | some call =>
        match call.peerConnection with
        | none => (.ok (), s3)
        | some pc =>
          if hasVideoSender pc.senders then
            let pc2 := { pc with senders := replaceFirstVideoTrack pc.senders newStream.getVideoTracks.head? }
            (.ok (), { s3 with currentCall := some { call with peerConnection := some pc2 } })
          else
            (.ok (), s3)

/-- Operation `getAvailableDevices()`: initialize devices first when the cache is
empty, then return the cached list. -/
def getAvailableDevices (p : Platform) (s : ServiceState) :
    (Except String (List MediaDeviceInfo)) × ServiceState :=
  if s.devices = [] then
    let r := initializeDevices p s
    match r.result with
    | .error e => (.error e, r.state)
    | .ok () => (.ok r.state.devices, r.state)
  else (.ok s.devices, s)

/-- Result of `disconnect()`: the state after teardown, and the list of
tracks the call stopped (each with `stopped := true`). -/
structure DisconnectOut where
  state : ServiceState
  stoppedTracks : List Track
deriving DecidableEq, Repr

/-- Operation `disconnect()`: clear any pending reconnect timer, stop the tracks of
the cached stream and drop it, close and drop any active call, destroy
and drop the peer, and reset `reconnectAttempts` to zero. -/
def disconnect (s : ServiceState) : DisconnectOut :=
  let s1 := if s.reconnectTimeout.isSome then { s with reconnectTimeout := none } else s
  let stopped := match s1.mediaStream with
    | some ms => ms.stopAll.tracks
    | none => []
  let s2 := if s1.mediaStream.isSome then { s1 with mediaStream := none } else s1
  let s3 := if s2.currentCall.isSome then { s2 with currentCall := none } else s2
  let s4 := if s3.peer.isSome then { s3 with peer := none } else s3
  { state := { s4 with reconnectAttempts := 0 }, stoppedTracks := stopped }

/-- A reconnect timer scheduled with handle `h` can still fire in `s`
exactly when `h` is the currently stored (uncancelled) handle. -/
def timerPending (s : ServiceState) (h : Nat) : Prop :=
  s.reconnectTimeout = some h

instance (s : ServiceState) (h : Nat) : Decidable (timerPending s h) := by
  unfold timerPending; infer_instance

/-- The preferred-device label substring of the earlier revision's
selection rule (`d.label.toLowerCase().includes('droidcam')`). -/
def preferredSubstr : String := "droidcam"

/-- Whether `pat` is a prefix of `cs`. -/
def startsWithChars : List Char → List Char → Bool
  | [], _ => true
  | _ :: _, [] => false
  | p :: ps, c :: cs => (p = c) && startsWithChars ps cs

/-- Whether `pat` occurs contiguously in the character list (the
`String.prototype.includes` test over the label's characters). -/
def containsChars : List Char → List Char → Bool
  | [], pat => startsWithChars pat []
  | c :: rest, pat => startsWithChars pat (c :: rest) || containsChars rest pat

/-- Whether a device's lowercased label contains the preferred substring
(`d.label.toLowerCase().includes('droidcam')`). -/
def labelMatchesPreferred (d : MediaDeviceInfo) : Bool :=
  containsChars (d.label.data.map Char.toLower) preferredSubstr.data

/-- The default-device selection of the earlier revision's
`initializeDevices`: when the filtered list is non-empty,
`droidcam?.deviceId || this.devices[0].deviceId` with
`droidcam = this.devices.find(d => d.label.toLowerCase().includes('droidcam'))`.
JavaScript `||` falls through both on `undefined` (no match) and on an
empty-string `deviceId` of the matched device. -/
def selectDefaultDeviceId (devices : List MediaDeviceInfo) : Option String :=
  match devices with
  | [] => none
  | d0 :: _ =>
    match devices.find? labelMatchesPreferred with
    | some d => some (if d.deviceId = "" then d0.deviceId else d.deviceId)
    | none => some d0.deviceId

/-- Operation `initializeDevices()` (earlier revision, the one carrying the
preference rule): capture with default constraints, keep the stream,
enumerate and filter to video inputs, and when non-empty set the device
id by the preference rule. Failures are wrapped into one fixed message. -/
def initializeDevicesV2 (p : Platform) (s : ServiceState) :
    (Except String Unit) × ServiceState :=
  match p.getUserMediaDefault with
  | .error _ =>
    (.error "Could not access camera or microphone. Please check your permissions.", s)
  | .ok stream =>
    let s1 := { s with mediaStream := some stream }
    let vids := p.enumerateDevices.filter (fun d => d.kind = "videoinput")
    let s2 := { s1 with devices := vids }
    match selectDefaultDeviceId vids with
    | some did => (.ok (), { s2 with deviceId := some did })
    | none => (.ok (), s2)

/-- Operation `initialize(userId)`: run `initializeDevices` when the device cache is
empty (a failure there aborts before the peer is created, keeping the
mutations made so far), then create the `Peer` for `userId`. -/
def initializeOp (p : Platform) (userId : String) (s : ServiceState) :
    (Except String Unit) × ServiceState :=
  if s.devices = [] then
    let r0 := initializeDevices p s
    match r0.result with
    | .error e => (.error e, r0.state)
    | .ok () =>
      (.ok (), { r0.state with peer := some { id := userId, disconnected := false, destroyed := false } })
  else
    (.ok (), { s with peer := some { id := userId, disconnected := false, destroyed := false } })

/-- The events that drive the service: its public operations (with the
platform responses they observe) and the relay / call / timer callbacks
registered in `initialize` and `handleCall`. -/
inductive Event where
  | evInitializeDevices (p : Platform)
  | evInitialize (p : Platform) (userId : String)
  | evPeerOpen
  | evPeerDisconnected (h : Nat)
  | evPeerError (errType : String) (h : Nat)
  | evInboundCall (p : Platform) (remoteId : String)
  | evMakeCall (p : Platform) (remoteId : String)
  | evSetVideoDevice (p : Platform) (did : String)
  | evGetLocalStream (p : Platform)
  | evGetAvailableDevices (p : Platform)
  | evCallClosed
  | evCallError
  | evTimerFired (h : Nat)
  | evDisconnect

/-- State transition of one event. Relay callbacks only run while a peer
exists (they are registered on it); `evPeerOpen` is the `open` handler
(resets `reconnectAttempts`); `evPeerDisconnected` is the `disconnected`
handler (the peer marks itself disconnected, then `handleDisconnection`
runs); `evPeerError` runs `handleDisconnection` only for the retryable
kinds; `evTimerFired` is the scheduled callback, which runs only while
its handle is still the stored one and calls `peer.reconnect()` (clearing
the peer's `disconnected` flag) when a peer exists; `evCallClosed` and
`evCallError` clear the current call. -/
def applyEvent (e : Event) (s : ServiceState) : ServiceState :=
  match e with
  | .evInitializeDevices p => (initializeDevices p s).state
  | .evInitialize p userId => (initializeOp p userId s).2
  | .evPeerOpen =>
    match s.peer with
    | some pr => { s with peer := some { pr with disconnected := false },
                          reconnectAttempts := 0 }
    | none => s
  | .evPeerDisconnected h =>
    match s.peer with
    | some pr =>
      (handleDisconnection { s with peer := some { pr with disconnected := true } } h).state
    | none => s
  | .evPeerError t h =>
    if s.peer.isSome && (t = "network" || t = "server-error") then
      (handleDisconnection s h).state
    else s
  | .evInboundCall p remoteId =>
    match s.peer with
    | some _ =>
      match getLocalStream p s with
      | (.ok stream, s1) => { s1 with currentCall := some (mkMediaConnection remoteId stream) }
      | (.error _, s1) => s1
    | none => s
  | .evMakeCall p remoteId => (makeCall p remoteId s).2
  | .evSetVideoDevice p did => (setVideoDevice p did s).2
  | .evGetLocalStream p => (getLocalStream p s).2
  | .evGetAvailableDevices p => (getAvailableDevices p s).2
  | .evCallClosed => { s with currentCall := none }
  | .evCallError => { s with currentCall := none }
  | .evTimerFired h =>
    if s.reconnectTimeout = some h then
      match s.peer with
      | some pr => { s with peer := some { pr with disconnected := false } }
      | none => s
    else s
  | .evDisconnect => (disconnect s).state

/-- The states reachable from the fresh singleton by any event sequence. -/
inductive Reachable : ServiceState → Prop where
  | init : Reachable initialState
  | step (e : Event) {s : ServiceState} : Reachable s → Reachable (applyEvent e s)

/-- The delays scheduled by a sequence of disconnection events (none when
a disconnection scheduled no timer). -/
def disconnectionDelays : ServiceState → List Nat → List (Option Nat)
  | _, [] => []
  | s, h :: rest =>
    (handleDisconnection s h).scheduledDelay ::
      disconnectionDelays (handleDisconnection s h).state rest

/-- Whether each disconnection of a sequence emitted the terminal
`peerError` notification. -/
def disconnectionTerminals : ServiceState → List Nat → List Bool
  | _, [] => []
  | s, h :: rest =>
    (handleDisconnection s h).terminalErrorEmitted ::
      disconnectionTerminals (handleDisconnection s h).state rest

/-- A sample two-track capture stream, for concrete instantiations. -/
def sampleStream : MediaStream :=
  { tracks := [{ id := "vt-1", kind := "video", stopped := false },
               { id := "at-1", kind := "audio", stopped := false }] }

/-- A second sample capture stream with a distinct video track. -/
def sampleStream2 : MediaStream :=
  { tracks := [{ id := "vt-2", kind := "video", stopped := false },
               { id := "at-2", kind := "audio", stopped := false }] }

/-- A sample one-camera enumeration, for concrete instantiations. -/
def sampleDevices : List MediaDeviceInfo :=
  [{ deviceId := "cam-1", kind := "videoinput", label := "Integrated Camera" },
   { deviceId := "cam-2", kind := "videoinput", label := "USB Camera" }]

/-- A sample healthy platform: permission granted, capture succeeds,
two cameras enumerated. -/
def platSample : Platform :=
  { cameraPermission := "granted",
    getUserMediaDefault := .ok sampleStream,
    getUserMediaExact := fun _ => .ok sampleStream2,
    enumerateDevices := sampleDevices }

/-- A platform whose camera permission is denied. -/
def platDenied : Platform :=
  { cameraPermission := "denied",
    getUserMediaDefault := .ok sampleStream,
    getUserMediaExact := fun _ => .ok sampleStream,
    enumerateDevices := sampleDevices }

/-- A platform with permission granted and a working capture but no
video input device at all. -/
def platNoVideo : Platform :=
  { cameraPermission := "granted",
    getUserMediaDefault := .ok sampleStream,
    getUserMediaExact := fun _ => .ok sampleStream,
    enumerateDevices := [{ deviceId := "mic-1", kind := "audioinput", label := "Microphone" }] }

/-- An enumeration in which a DroidCam-labelled device reports an empty
`deviceId` (as browsers do before full permission) and is not first. -/
def devsC6 : List MediaDeviceInfo :=
  [{ deviceId := "cam-a", kind := "videoinput", label := "Integrated Webcam" },
   { deviceId := "", kind := "videoinput", label := "DroidCam Source 3" }]

/-- A platform enumerating `devsC6`. -/
def platC6 : Platform :=
  { cameraPermission := "granted",
    getUserMediaDefault := .ok sampleStream,
    getUserMediaExact := fun _ => .ok sampleStream,
    enumerateDevices := devsC6 }

/-- A platform on which every exact-device capture fails (device present
but unusable), while enumeration still lists the cameras. -/
def platC7fail : Platform :=
  { cameraPermission := "granted",
    getUserMediaDefault := .ok sampleStream,
    getUserMediaExact := fun _ => .error "NotReadableError: Could not start video source",
    enumerateDevices := sampleDevices }

/-- A sample established call carrying one video sender. -/
def sampleCall : MediaConnection :=
  { peer := "room-42", isOpen := true,
    peerConnection := some
      { senders := [{ track := some { id := "vt-1", kind := "video", stopped := false } }] } }

/-- A sample established call whose transport carries no video sender
(audio sender only). -/
def audioOnlyCall : MediaConnection :=
  { peer := "room-42", isOpen := true,
    peerConnection := some
      { senders := [{ track := some { id := "at-9", kind := "audio", stopped := false } }] } }

/-- A sample mid-call state: connected peer, cached stream, active call,
a non-zero attempt counter (to observe that it is not reset). -/
def midCallState : ServiceState :=
  { peer := some { id := "user-a", disconnected := false, destroyed := false },
    mediaStream := some sampleStream,
    currentCall := some sampleCall,
    deviceId := some "cam-1",
    devices := sampleDevices,
    reconnectAttempts := 2,
    reconnectTimeout := none }

/-- The mid-call state with the audio-only call instead. -/
def midCallStateAudioOnly : ServiceState :=
  { midCallState with currentCall := some audioOnlyCall }

theorem stopCurrentTracks_attempts (s : ServiceState) :
    (stopCurrentTracks s).reconnectAttempts = s.reconnectAttempts := by
  unfold stopCurrentTracks; split <;> rfl

theorem stopCurrentTracks_timeout (s : ServiceState) :
    (stopCurrentTracks s).reconnectTimeout = s.reconnectTimeout := by
  unfold stopCurrentTracks; split <;> rfl

theorem stopCurrentTracks_peer (s : ServiceState) :
    (stopCurrentTracks s).peer = s.peer := by
  unfold stopCurrentTracks; split <;> rfl

theorem stopCurrentTracks_currentCall (s : ServiceState) :
    (stopCurrentTracks s).currentCall = s.currentCall := by
  unfold stopCurrentTracks; split <;> rfl

theorem initializeDevices_attempts (p : Platform) (s : ServiceState) :
    (initializeDevices p s).state.reconnectAttempts = s.reconnectAttempts := by
  unfold initializeDevices
  split
  · rfl
  · split
    · rfl
    · dsimp only
      split <;> rfl

theorem getLocalStream_attempts (p : Platform) (s : ServiceState) :
    (getLocalStream p s).2.reconnectAttempts = s.reconnectAttempts := by
  unfold getLocalStream
  split
  · rfl
  · split <;> rfl

theorem makeCall_attempts (p : Platform) (r : String) (s : ServiceState) :
    (makeCall p r s).2.reconnectAttempts = s.reconnectAttempts := by
  unfold makeCall
  split
  · rfl
  · split
    · rfl
    · split
      · rfl
      · rename_i stream s1 heq
        have h2 := getLocalStream_attempts p s
        rw [heq] at h2
        exact h2

theorem setVideoDevice_state (p : Platform) (did : String) (s : ServiceState) :
    (setVideoDevice p did s).2.reconnectAttempts = s.reconnectAttempts ∧
    (setVideoDevice p did s).2.reconnectTimeout = s.reconnectTimeout ∧
    (setVideoDevice p did s).2.peer = s.peer := by
  unfold setVideoDevice
  split
  · exact ⟨rfl, rfl, rfl⟩
  · dsimp only
    split
    · exact ⟨stopCurrentTracks_attempts s, stopCurrentTracks_timeout s, stopCurrentTracks_peer s⟩
    · split
      · exact ⟨stopCurrentTracks_attempts s, stopCurrentTracks_timeout s, stopCurrentTracks_peer s⟩
      · split
        · exact ⟨stopCurrentTracks_attempts s, stopCurrentTracks_timeout s, stopCurrentTracks_peer s⟩
        · split
          · exact ⟨stopCurrentTracks_attempts s, stopCurrentTracks_timeout s, stopCurrentTracks_peer s⟩
          · exact ⟨stopCurrentTracks_attempts s, stopCurrentTracks_timeout s, stopCurrentTracks_peer s⟩

theorem getAvailableDevices_attempts (p : Platform) (s : ServiceState) :
    (getAvailableDevices p s).2.reconnectAttempts = s.reconnectAttempts := by
  unfold getAvailableDevices
  split
  · dsimp only
    split
    · exact initializeDevices_attempts p s
    · exact initializeDevices_attempts p s
  · rfl

theorem initializeOp_attempts (p : Platform) (u : String) (s : ServiceState) :
    (initializeOp p u s).2.reconnectAttempts = s.reconnectAttempts := by
  unfold initializeOp
  split
  · dsimp only
    split
    · exact initializeDevices_attempts p s
    · exact initializeDevices_attempts p s
  · rfl

theorem handleDisconnection_attempts_le (s : ServiceState) (h : Nat)
    (hle : s.reconnectAttempts ≤ maxReconnectAttempts) :
    (handleDisconnection s h).state.reconnectAttempts ≤ maxReconnectAttempts := by
  unfold handleDisconnection
  split
  · exact hle
  · rename_i hlt
    simp only [not_le] at hlt
    show s.reconnectAttempts + 1 ≤ maxReconnectAttempts
    omega

theorem disconnect_attempts (s : ServiceState) :
    (disconnect s).state.reconnectAttempts = 0 := rfl

theorem applyEvent_attempts_le (e : Event) (s : ServiceState)
    (hle : s.reconnectAttempts ≤ maxReconnectAttempts) :
    (applyEvent e s).reconnectAttempts ≤ maxReconnectAttempts := by
  cases e with
  | evInitializeDevices p =>
    exact (initializeDevices_attempts p s).trans_le hle
  | evInitialize p u =>
    exact (initializeOp_attempts p u s).trans_le hle
  | evPeerOpen =>
    simp only [applyEvent]
    split
    · exact Nat.zero_le _
    · exact hle
  | evPeerDisconnected h =>
    simp only [applyEvent]
    split
    · exact handleDisconnection_attempts_le _ h hle
    · exact hle
  | evPeerError t h =>
    simp only [applyEvent]
    split
    · exact handleDisconnection_attempts_le _ h hle
    · exact hle
  | evInboundCall p r =>
    simp only [applyEvent]
    split
    · split <;> rename_i heq
      · have h2 := getLocalStream_attempts p s
        rw [heq] at h2
        exact h2.trans_le hle
      · have h2 := getLocalStream_attempts p s
        rw [heq] at h2
        exact h2.trans_le hle
    · exact hle
  | evMakeCall p r =>
    exact (makeCall_attempts p r s).trans_le hle
  | evSetVideoDevice p did =>
    exact (setVideoDevice_state p did s).1.trans_le hle
  | evGetLocalStream p =>
    exact (getLocalStream_attempts p s).trans_le hle
  | evGetAvailableDevices p =>
    exact (getAvailableDevices_attempts p s).trans_le hle
  | evCallClosed => exact hle
  | evCallError => exact hle
  | evTimerFired h =>
    simp only [applyEvent]
    split
    · split
      · exact hle
      · exact hle
    · exact hle
  | evDisconnect =>
    exact (disconnect_attempts s).trans_le (Nat.zero_le _)

theorem reachable_attempts_le {s : ServiceState} (hr : Reachable s) :
    s.reconnectAttempts ≤ maxReconnectAttempts := by
  induction hr with
  | init => exact Nat.zero_le _
  | step e _ ih => exact applyEvent_attempts_le e _ ih

theorem handleDisconnection_delay (s : ServiceState) (h : Nat) :
    (handleDisconnection s h).scheduledDelay =
      if s.reconnectAttempts ≥ maxReconnectAttempts then none
      else some (Nat.min (baseReconnectDelayMs * 2 ^ (s.reconnectAttempts + 1)) capDelayMs) := by
  unfold handleDisconnection
  by_cases hc : s.reconnectAttempts ≥ maxReconnectAttempts
  · rw [if_pos hc, if_pos hc]
  · rw [if_neg hc, if_neg hc]

theorem handleDisconnection_terminalFlag (s : ServiceState) (h : Nat) :
    (handleDisconnection s h).terminalErrorEmitted =
      (decide (s.reconnectAttempts ≥ maxReconnectAttempts)) := by
  unfold handleDisconnection
  by_cases hc : s.reconnectAttempts ≥ maxReconnectAttempts
  · rw [if_pos hc]; simp [hc]
  · rw [if_neg hc]; simp [hc]

theorem handleDisconnection_state_attempts (s : ServiceState) (h : Nat) :
    (handleDisconnection s h).state.reconnectAttempts =
      if s.reconnectAttempts ≥ maxReconnectAttempts then s.reconnectAttempts
      else s.reconnectAttempts + 1 := by
  unfold handleDisconnection
  by_cases hc : s.reconnectAttempts ≥ maxReconnectAttempts
  · rw [if_pos hc, if_pos hc]
  · rw [if_neg hc, if_neg hc]

theorem handleDisconnection_terminal (s : ServiceState) (h : Nat)
    (hge : s.reconnectAttempts ≥ maxReconnectAttempts) :
    handleDisconnection s h = ⟨s, none, true⟩ := by
  unfold handleDisconnection
  rw [if_pos hge]

/-- The backoff run depends on the starting state only through
`reconnectAttempts` (and not on the timer handles). -/
theorem disconnectionRun_congr (hs : List Nat) :
    ∀ (hsB : List Nat), hs.length = hsB.length →
    ∀ (s sB : ServiceState), s.reconnectAttempts = sB.reconnectAttempts →
      disconnectionDelays s hs = disconnectionDelays sB hsB ∧
      disconnectionTerminals s hs = disconnectionTerminals sB hsB := by
  induction hs with
  | nil =>
    intro hsB hlen s sB _
    cases hsB with
    | nil => exact ⟨rfl, rfl⟩
    | cons _ _ => simp at hlen
  | cons h rest ih =>
    intro hsB hlen s sB hatt
    cases hsB with
    | nil => simp at hlen
    | cons hB restB =>
      have hlen2 : rest.length = restB.length := by simpa using hlen
      have hatt1 : (handleDisconnection s h).state.reconnectAttempts =
          (handleDisconnection sB hB).state.reconnectAttempts := by
        rw [handleDisconnection_state_attempts, handleDisconnection_state_attempts, hatt]
      have hdel : (handleDisconnection s h).scheduledDelay =
          (handleDisconnection sB hB).scheduledDelay := by
        rw [handleDisconnection_delay, handleDisconnection_delay, hatt]
      have hterm : (handleDisconnection s h).terminalErrorEmitted =
          (handleDisconnection sB hB).terminalErrorEmitted := by
        rw [handleDisconnection_terminalFlag, handleDisconnection_terminalFlag, hatt]
      obtain ⟨ihd, iht⟩ :=
        ih restB hlen2 (handleDisconnection s h).state (handleDisconnection sB hB).state hatt1
      constructor
      · simp only [disconnectionDelays, hdel, ihd]
      · simp only [disconnectionTerminals, hterm, iht]

/-- Claim C1: from any state with zero reconnection attempts, six
successive retryable disconnection events schedule reconnect timers with
delays 2000, 4000, 8000, 10000, 10000 ms for attempts 1 through 5 (the
exponential backoff `min(1000 * 2^attempts, 10000)` with the incremented
attempt count), and the sixth disconnection schedules no timer and instead
emits the terminal `peerError` (connectivity-error) notification. -/
theorem C1_reconnect_delay_sequence (s : ServiceState) (h1 h2 h3 h4 h5 h6 : Nat)
    (h0 : s.reconnectAttempts = 0) :
    disconnectionDelays s [h1, h2, h3, h4, h5, h6] =
      [some 2000, some 4000, some 8000, some 10000, some 10000, none] ∧
    disconnectionTerminals s [h1, h2, h3, h4, h5, h6] =
      [false, false, false, false, false, true] := by
  have hcongr := disconnectionRun_congr [h1, h2, h3, h4, h5, h6] [0, 0, 0, 0, 0, 0]
    rfl s initialState (by rw [h0]; rfl)
  exact ⟨hcongr.1.trans (by decide), hcongr.2.trans (by decide)⟩

/-- Witness for C1 at the fresh state and concrete timer handles. -/
theorem C1_reconnect_delay_sequence_witness :
    disconnectionDelays initialState [11, 12, 13, 14, 15, 16] =
      [some 2000, some 4000, some 8000, some 10000, some 10000, none] ∧
    disconnectionTerminals initialState [11, 12, 13, 14, 15, 16] =
      [false, false, false, false, false, true] :=
  C1_reconnect_delay_sequence initialState 11 12 13 14 15 16 rfl

/-- Claim C2: in every reachable state `reconnectAttempts` never exceeds
`maxReconnectAttempts`, and once it has reached the maximum a further
disconnection event emits the terminal `peerError` notification, schedules
no reconnect timer, and leaves the state (in particular the attempt
counter) unchanged. -/
theorem C2_attempts_invariant :
    (∀ s : ServiceState, Reachable s → s.reconnectAttempts ≤ maxReconnectAttempts) ∧
    (∀ (s : ServiceState) (h : Nat), s.reconnectAttempts = maxReconnectAttempts →
      handleDisconnection s h = ⟨s, none, true⟩) :=
  ⟨fun _ hr => reachable_attempts_le hr,
   fun s h hs => handleDisconnection_terminal s h (le_of_eq hs.symm)⟩

/-- Witness for C2 at the fresh state and at a concrete exhausted state. -/
theorem C2_attempts_invariant_witness :
    initialState.reconnectAttempts ≤ maxReconnectAttempts ∧
    handleDisconnection { initialState with reconnectAttempts := 5 } 3 =
      ⟨{ initialState with reconnectAttempts := 5 }, none, true⟩ :=
  ⟨C2_attempts_invariant.1 initialState Reachable.init,
   C2_attempts_invariant.2 { initialState with reconnectAttempts := 5 } 3 rfl⟩

theorem disconnect_state_eq (s : ServiceState) :
    (disconnect s).state =
      { peer := none, mediaStream := none, currentCall := none,
        deviceId := s.deviceId, devices := s.devices,
        reconnectAttempts := 0, reconnectTimeout := none } := by
  unfold disconnect
  dsimp only
  cases hrt : s.reconnectTimeout <;> cases hms : s.mediaStream <;>
    cases hcc : s.currentCall <;> cases hp : s.peer <;>
    simp [hrt, hms, hcc, hp]

theorem disconnect_stoppedTracks_eq (s : ServiceState) :
    (disconnect s).stoppedTracks =
      match s.mediaStream with
      | some ms => ms.stopAll.tracks
      | none => [] := by
  unfold disconnect
  dsimp only
  cases hrt : s.reconnectTimeout <;> cases hms : s.mediaStream <;> simp [hrt, hms]

/-- Claim C3: `disconnect()` clears the pending reconnect timer, releases
the local stream (with every track it stopped actually stopped), closes
the active call, tears down the peer and resets the attempt counter; a
second `disconnect()` leaves the state identical and stops nothing
(idempotent teardown, no error is ever produced); and after a disconnect
no previously scheduled reconnect timer is pending, so none can fire (the
timer-fired callback is a no-op on the torn-down state). -/
theorem C3_disconnect_teardown_idempotent (s : ServiceState) :
    (disconnect s).state.reconnectTimeout = none ∧
    (disconnect s).state.mediaStream = none ∧
    (disconnect s).state.currentCall = none ∧
    (disconnect s).state.peer = none ∧
    (disconnect s).state.reconnectAttempts = 0 ∧
    (∀ t ∈ (disconnect s).stoppedTracks, t.stopped = true) ∧
    disconnect (disconnect s).state = ⟨(disconnect s).state, []⟩ ∧
    (∀ h : Nat, ¬ timerPending (disconnect s).state h) ∧
    (∀ h : Nat, applyEvent (.evTimerFired h) (disconnect s).state = (disconnect s).state) := by
  rw [disconnect_state_eq]
  refine ⟨rfl, rfl, rfl, rfl, rfl, ?_, ?_, ?_, ?_⟩
  · intro t ht
    rw [disconnect_stoppedTracks_eq] at ht
    cases hms : s.mediaStream with
    | none => rw [hms] at ht; simp at ht
    | some ms =>
      rw [hms] at ht
      simp only [MediaStream.stopAll, List.mem_map] at ht
      obtain ⟨t0, _, rfl⟩ := ht
      rfl
  · rfl
  · intro h
    simp [timerPending]
  · intro h
    simp [applyEvent]

/-- Witness for C3 at the concrete mid-call state. -/
theorem C3_disconnect_teardown_idempotent_witness :
    (disconnect midCallState).state.reconnectTimeout = none ∧
    disconnect (disconnect midCallState).state =
      ⟨(disconnect midCallState).state, []⟩ :=
  ⟨(C3_disconnect_teardown_idempotent midCallState).1,
   (C3_disconnect_teardown_idempotent midCallState).2.2.2.2.2.2.1⟩

/-- Claim C4: whenever the relay connection is not open (no peer exists,
or the peer is disconnected, which includes the whole reconnecting
window), `makeCall` fails synchronously with the not-connected error and
the state is unchanged: no stream is acquired, no call is initiated, and
no retry is scheduled. -/
theorem C4_makeCall_not_connected (p : Platform) (remoteId : String) (s : ServiceState)
    (h : s.peer = none ∨ ∃ pr, s.peer = some pr ∧ pr.disconnected = true) :
    makeCall p remoteId s = (.error notConnectedMsg, s) := by
  unfold makeCall
  rcases h with h | ⟨pr, hp, hd⟩
  · rw [h]
  · rw [hp]
    dsimp only
    rw [if_pos hd]

/-- Witness for C4 at the fresh (peer-less) state. -/
theorem C4_makeCall_not_connected_witness :
    makeCall platSample "room-42" initialState = (.error notConnectedMsg, initialState) :=
  C4_makeCall_not_connected platSample "room-42" initialState (Or.inl rfl)

/-- Claim C5: `initializeDevices` checks the camera permission first and,
when denied, fails with the permission-denied error without attempting
capture and without touching the state; otherwise, when capture succeeds,
it caches the capture stream and fails with the no-device error exactly
when the enumeration filtered to video inputs is empty; when the filtered
list is non-empty it succeeds with that non-empty list cached. -/
theorem C5_initializeDevices_permission_and_devices (p : Platform) (s : ServiceState) :
    (p.cameraPermission = "denied" →
      initializeDevices p s = ⟨.error permissionDeniedMsg, s, false⟩) ∧
    (∀ stream : MediaStream, p.cameraPermission ≠ "denied" →
      p.getUserMediaDefault = .ok stream →
      ((initializeDevices p s).result = .error noVideoDevicesMsg ↔
        p.enumerateDevices.filter (fun d => d.kind = "videoinput") = []) ∧
      (initializeDevices p s).state.mediaStream = some stream ∧
      (p.enumerateDevices.filter (fun d => d.kind = "videoinput") ≠ [] →
        (initializeDevices p s).result = .ok () ∧
        (initializeDevices p s).state.devices =
          p.enumerateDevices.filter (fun d => d.kind = "videoinput") ∧
        (initializeDevices p s).state.devices ≠ [])) := by
  constructor
  · intro hperm
    unfold initializeDevices
    rw [if_pos hperm]
  · intro stream hperm hcap
    unfold initializeDevices
    rw [if_neg hperm, hcap]
    dsimp only
    cases hf : p.enumerateDevices.filter (fun d => d.kind = "videoinput") with
    | nil =>
      exact ⟨by simp, rfl, fun hne => absurd rfl hne⟩
    | cons d rest =>
      refine ⟨⟨fun habs => absurd habs (by simp), fun habs => absurd habs (by simp)⟩,
              rfl, fun _ => ⟨rfl, rfl, by simp⟩⟩

/-- Witness for C5: the denied platform is rejected without capture, and
the healthy platform yields a successful initialization. -/
theorem C5_initializeDevices_permission_and_devices_witness :
    initializeDevices platDenied initialState =
      ⟨.error permissionDeniedMsg, initialState, false⟩ ∧
    (initializeDevices platSample initialState).result = .ok () := by
  refine ⟨(C5_initializeDevices_permission_and_devices platDenied initialState).1 rfl, ?_⟩
  exact (((C5_initializeDevices_permission_and_devices platSample initialState).2
    sampleStream (by decide) rfl).2.2 (by decide)).1

/-- Claim C10: when `initializeDevices` fails because the filtered
video-input list is empty, the capture stream acquired earlier in the same
call stays cached unmodified (its tracks are not stopped by the failed
operation), and a subsequent `getLocalStream` returns exactly that cached
stream: the error path is not atomic with respect to the stream cache. -/
theorem C10_stream_retained_on_empty_enumeration (p p2 : Platform) (s : ServiceState)
    (stream : MediaStream)
    (hperm : p.cameraPermission ≠ "denied")
    (hcap : p.getUserMediaDefault = .ok stream)
    (henum : p.enumerateDevices.filter (fun d => d.kind = "videoinput") = [])
    (hlive : ∀ t ∈ stream.tracks, t.stopped = false) :
    (initializeDevices p s).result = .error noVideoDevicesMsg ∧
    (initializeDevices p s).state.mediaStream = some stream ∧
    (∀ t ∈ stream.tracks, t.stopped = false) ∧
    getLocalStream p2 (initializeDevices p s).state =
      (.ok stream, (initializeDevices p s).state) := by
  unfold initializeDevices
  rw [if_neg hperm, hcap]
  dsimp only
  rw [henum]
  exact ⟨rfl, rfl, hlive, rfl⟩

/-- Witness for C10 on a platform with no video inputs. -/
theorem C10_stream_retained_on_empty_enumeration_witness :
    (initializeDevices platNoVideo initialState).result = .error noVideoDevicesMsg ∧
    (initializeDevices platNoVideo initialState).state.mediaStream = some sampleStream ∧
    getLocalStream platNoVideo (initializeDevices platNoVideo initialState).state =
      (.ok sampleStream, (initializeDevices platNoVideo initialState).state) := by
  have h := C10_stream_retained_on_empty_enumeration platNoVideo platNoVideo initialState
    sampleStream (by decide) rfl (by decide) (by decide)
  exact ⟨h.1, h.2.1, h.2.2.2⟩

/-- Counterexample to C6 as stated: in `devsC6` a device's label matches
the preferred substring (the DroidCam entry), yet the selection made by
the source's rule is `cam-a`, which is not the id of any matching device:
the JavaScript fallback `droidcam?.deviceId || devices[0].deviceId` falls
through to the first device when the matching device's id is the empty
string. -/
theorem C6_counterexample :
    devsC6.any labelMatchesPreferred = true ∧
    (initializeDevicesV2 platC6 initialState).2.deviceId = some "cam-a" ∧
    (∀ d ∈ devsC6, labelMatchesPreferred d = true → d.deviceId ≠ "cam-a") := by
  decide

/-- Claim C6 amended: the selection is deterministic (a pure function of
the enumerated list) and follows the preference rule with an empty-id
proviso: when the first device whose label matches the preferred substring
has a non-empty id, that device's id is selected; when no label matches,
or the first matching device reports an empty id, the first enumerated
device's id is selected. -/
theorem C6_selection_rule_amended (devices : List MediaDeviceInfo)
    (d0 : MediaDeviceInfo) (rest : List MediaDeviceInfo)
    (hdev : devices = d0 :: rest) :
    (∀ d, devices.find? labelMatchesPreferred = some d → d.deviceId ≠ "" →
      selectDefaultDeviceId devices = some d.deviceId) ∧
    (devices.find? labelMatchesPreferred = none →
      selectDefaultDeviceId devices = some d0.deviceId) ∧
    (∀ d, devices.find? labelMatchesPreferred = some d → d.deviceId = "" →
      selectDefaultDeviceId devices = some d0.deviceId) := by
  subst hdev
  refine ⟨?_, ?_, ?_⟩
  · intro d hfind hne
    unfold selectDefaultDeviceId
    dsimp only
    rw [hfind]
    dsimp only
    rw [if_neg hne]
  · intro hfind
    unfold selectDefaultDeviceId
    dsimp only
    rw [hfind]
  · intro d hfind he
    unfold selectDefaultDeviceId
    dsimp only
    rw [hfind]
    dsimp only
    rw [if_pos he]

/-- Witness for the amended C6 on `devsC6` (first matching device has an
empty id, so the first enumerated device is selected). -/
theorem C6_selection_rule_amended_witness :
    selectDefaultDeviceId devsC6 = some "cam-a" :=
  (C6_selection_rule_amended devsC6
      { deviceId := "cam-a", kind := "videoinput", label := "Integrated Webcam" }
      [{ deviceId := "", kind := "videoinput", label := "DroidCam Source 3" }]
      rfl).2.2
    { deviceId := "", kind := "videoinput", label := "DroidCam Source 3" }
    (by decide) rfl

/-- Counterexample to C7 as stated: `setVideoDevice` on a stale id fails
with the generic switch-failure message, the very same error produced
when the device is present but its capture fails, so the failure is not
distinguishable by the caller as a device-not-found condition. -/
theorem C7_counterexample :
    (sampleDevices.find? (fun d => d.deviceId = "cam-9" && d.kind = "videoinput") = none) ∧
    (setVideoDevice platSample "cam-9" initialState).1 = .error switchDeviceFailedMsg ∧
    (setVideoDevice platC7fail "cam-1" initialState).1 = .error switchDeviceFailedMsg := by
  decide

/-- Claim C7 amended: for every deviceId absent from the fresh
enumeration's video inputs, `setVideoDevice` fails with the generic
switch-failure error (not distinguishable from other switch failures),
and in that failure the state is completely unchanged: no track of the
current stream is stopped and the selected device id is untouched. -/
theorem C7_stale_device_rejected (p : Platform) (did : String) (s : ServiceState)
    (h : p.enumerateDevices.find? (fun d => d.deviceId = did && d.kind = "videoinput") = none) :
    setVideoDevice p did s = (.error switchDeviceFailedMsg, s) := by
  unfold setVideoDevice
  rw [h]

/-- Witness for the amended C7 on a stale id. -/
theorem C7_stale_device_rejected_witness :
    setVideoDevice platSample "cam-9" initialState =
      (.error switchDeviceFailedMsg, initialState) :=
  C7_stale_device_rejected platSample "cam-9" initialState (by decide)

/-- Claim C8: a successful mid-call `setVideoDevice` leaves the call's
room (the remote peer id the call targets), the call's open status, and
the reconnection state (`reconnectAttempts` and the pending timer)
unchanged: only the stream, the selected device id and the senders of the
existing transport may change. -/
theorem C8_setVideoDevice_frame (p : Platform) (did : String) (s : ServiceState)
    (call : MediaConnection)
    (hc : s.currentCall = some call)
    (hok : (setVideoDevice p did s).1 = .ok ()) :
    ∃ callB : MediaConnection,
      (setVideoDevice p did s).2.currentCall = some callB ∧
      callB.peer = call.peer ∧
      callB.isOpen = call.isOpen ∧
      (setVideoDevice p did s).2.reconnectAttempts = s.reconnectAttempts ∧
      (setVideoDevice p did s).2.reconnectTimeout = s.reconnectTimeout := by
  have hcc : (stopCurrentTracks s).currentCall = some call :=
    (stopCurrentTracks_currentCall s).trans hc
  unfold setVideoDevice
  cases hfind : p.enumerateDevices.find?
      (fun d => d.deviceId = did && d.kind = "videoinput") with
  | none =>
    rw [setVideoDevice, hfind] at hok
    exact absurd hok (by simp)
  | some dfound =>
    dsimp only
    cases hcap : p.getUserMediaExact did with
    | error e =>
      rw [setVideoDevice, hfind] at hok
      dsimp only at hok
      rw [hcap] at hok
      exact absurd hok (by simp)
    | ok newStream =>
      rw [hcc]
      dsimp only
      cases hpc : call.peerConnection with
      | none =>
        exact ⟨call, rfl, rfl, rfl,
          stopCurrentTracks_attempts s, stopCurrentTracks_timeout s⟩
      | some pc =>
        dsimp only
        by_cases hv : hasVideoSender pc.senders = true
        · rw [if_pos hv]
          exact ⟨_, rfl, rfl, rfl,
            stopCurrentTracks_attempts s, stopCurrentTracks_timeout s⟩
        · rw [if_neg hv]
          exact ⟨call, rfl, rfl, rfl,
            stopCurrentTracks_attempts s, stopCurrentTracks_timeout s⟩

/-- Witness for C8: a concrete mid-call device switch succeeds and leaves
room id, call status and reconnection state unchanged. -/
theorem C8_setVideoDevice_frame_witness :
    ∃ callB : MediaConnection,
      (setVideoDevice platSample "cam-2" midCallState).2.currentCall = some callB ∧
      callB.peer = sampleCall.peer ∧
      callB.isOpen = sampleCall.isOpen ∧
      (setVideoDevice platSample "cam-2" midCallState).2.reconnectAttempts =
        midCallState.reconnectAttempts ∧
      (setVideoDevice platSample "cam-2" midCallState).2.reconnectTimeout =
        midCallState.reconnectTimeout :=
  C8_setVideoDevice_frame platSample "cam-2" midCallState sampleCall rfl (by decide)

/-- Claim C9: a mid-call `setVideoDevice` whose active call's transport
carries no video sender completes successfully, surfaces no error, and
replaces no track: the whole call object (its senders included) is left
exactly as it was. -/
theorem C9_no_video_sender_silent (p : Platform) (did : String) (s : ServiceState)
    (call : MediaConnection) (pc : PeerConnection) (dfound : MediaDeviceInfo)
    (stream : MediaStream)
    (hc : s.currentCall = some call)
    (hpc : call.peerConnection = some pc)
    (hns : hasVideoSender pc.senders = false)
    (hfind : p.enumerateDevices.find? (fun d => d.deviceId = did && d.kind = "videoinput") =
      some dfound)
    (hcap : p.getUserMediaExact did = .ok stream) :
    (setVideoDevice p did s).1 = .ok () ∧
    (setVideoDevice p did s).2.currentCall = some call := by
  have hcc : (stopCurrentTracks s).currentCall = some call :=
    (stopCurrentTracks_currentCall s).trans hc
  unfold setVideoDevice
  rw [hfind]
  dsimp only
  rw [hcap]
  dsimp only
  rw [hcc]
  dsimp only
  rw [hpc]
  dsimp only
  rw [if_neg (by rw [hns]; exact Bool.false_ne_true)]
  exact ⟨rfl, rfl⟩

/-- Witness for C9 on the audio-only mid-call state. -/
theorem C9_no_video_sender_silent_witness :
    (setVideoDevice platSample "cam-2" midCallStateAudioOnly).1 = .ok () ∧
    (setVideoDevice platSample "cam-2" midCallStateAudioOnly).2.currentCall =
      some audioOnlyCall :=
  C9_no_video_sender_silent platSample "cam-2" midCallStateAudioOnly audioOnlyCall
    { senders := [{ track := some { id := "at-9", kind := "audio", stopped := false } }] }
    { deviceId := "cam-2", kind := "videoinput", label := "USB Camera" }
    sampleStream2 rfl rfl (by decide) (by decide) rfl

end WebRTC
